import Mathlib

/-!
Shallow embedding of the COMP2537 demo web application (two entry-point
variants: `src/index.js` and `src/unnamed/part_000`).  Pure route handlers
are modelled as functions from request data, session and database state to
a `Result` record holding the HTTP response, the updated session, the
updated user collection, and the list of side effects (hash calls and
database operations) the handler performed.
-/

namespace Demo

/-- `saltRounds = 12` (src/index.js line 23, src/unnamed/part_000 line 23). -/
def saltRounds : Nat := 12

/-- `expireTime = 1 * 60 * 60 * 1000` milliseconds
(src/index.js line 24, src/unnamed/part_000 line 24). -/
def expireTime : Nat := 1 * 60 * 60 * 1000

/-- A stored user document.  `uid` embeds Mongo's `_id`; `user_type` is
`none` when the document has no `user_type` field (as for documents
inserted by the `src/index.js` signup) and `some t` otherwise. -/
structure UserRec where
  uid : String
  username : String
  email : String
  password : String
  user_type : Option String
  deriving DecidableEq, Repr

/-- The express session object: `authenticated`, `username`, `user_type`
fields, each absent (`false` / `none`) on a fresh session. -/
structure Session where
  authenticated : Bool
  username : Option String
  user_type : Option String
  deriving DecidableEq, Repr

/-- A fresh session: no field has been assigned. -/
def anonymousSession : Session := ⟨false, none, none⟩

/-- Row shape produced by the `/admin` handler projection
`project(\x7b username: 1, user_type: 1, _id: 1 \x7d)`. -/
structure AdminRow where
  username : String
  user_type : Option String
  uid : String
  deriving DecidableEq, Repr

/-- Responses a handler can produce. -/
inductive Response where
  /-- `res.redirect(loc)` -/
  | redirect (loc : String)
  /-- `res.send(body)` -/
  | send (body : String)
  /-- `res.render("signup", \x7b errorMessage \x7d)` -/
  | renderSignup (errorMessage : Option String)
  /-- `res.render("login", \x7b errorMessage \x7d)` -/
  | renderLogin (errorMessage : Option String)
  /-- `res.status(code); res.render("errorMessage", \x7b error \x7d)` -/
  | renderError (status : Nat) (error : String)
  /-- `res.render("admin", \x7b users \x7d)` -/
  | renderAdmin (users : List AdminRow)
  deriving DecidableEq, Repr

/-- Side effects a handler can perform against the hasher or the store. -/
inductive Effect where
  /-- `bcrypt.hash(plain, cost)` -/
  | hashCall (plain : String) (cost : Nat)
  /-- `bcrypt.compare(plain, hash)` -/
  | compareCall (plain : String) (hash : String)
  /-- `userCollection.insertOne(r)` -/
  | insert (r : UserRec)
  /-- `userCollection.findOne(\x7b email \x7d)` -/
  | findEmail (email : String)
  /-- `userCollection.find(\x7b username \x7d)` -/
  | findUsername (name : String)
  /-- `userCollection.find()` (list all) -/
  | findAll
  /-- `userCollection.updateOne(\x7b _id \x7d, \x7b $set: \x7b user_type \x7d \x7d)` -/
  | update (uid : String) (newType : String)
  deriving DecidableEq, Repr

/-- The outcome of running a route: response, session after the request,
database after the request, effects performed, and whether the innermost
(protected) handler body was entered. -/
structure Result where
  response : Response
  session : Session
  db : List UserRec
  effects : List Effect
  handlerRan : Bool
  deriving DecidableEq, Repr

/-! ## Validator (Joi schemas from the source)

`signupSchema` = username alphanum ≤20 required, email required,
password ≤20 required; `loginSchema` = email required, password ≤20
required.  Joi aborts at the first violation and reports
`error.details[0].message`; on success it yields the validated `value`. -/

/-- Joi `alphanum`: ASCII letters and digits only. -/
def isAlphanumChar (c : Char) : Bool := c.isAlpha || c.isDigit

/-- Splits a character list on a separator character (used to model the
shape check of Joi's `email()`). -/
def splitChar (c : Char) : List Char → List (List Char)
  | [] => [[]]
  | x :: xs =>
    match splitChar c xs with
    | [] => if x = c then [[], []] else [[x]]
    | y :: ys => if x = c then [] :: y :: ys else (x :: y) :: ys

/-- Modelled from the spec: Joi's `email()` check is library behaviour not
present in src; the spec calls it "RFC-shaped, required".  Shape model: one
`@` separating a non-empty local part from a domain of at least two
non-empty dot-separated labels. -/
def isEmailShaped (s : String) : Bool :=
  match splitChar '@' s.data with
  | [l, d] =>
    let parts := splitChar '.' d
    !l.isEmpty && decide (2 ≤ parts.length) && parts.all (fun p => !p.isEmpty)
  | _ => false

/-- `Joi.string().alphanum().max(20).required()` on the `username` field:
first violation message, or the validated value. -/
def checkUsername : Option String → Except String String
  | none => .error "\"username\" is required"
  | some s =>
    if s.data.isEmpty then .error "\"username\" is not allowed to be empty"
    else if !s.data.all isAlphanumChar then
      .error "\"username\" must only contain alpha-numeric characters"
    else if 20 < s.length then
      .error "\"username\" length must be less than or equal to 20 characters long"
    else .ok s

/-- `Joi.string().email().required()` on the `email` field. -/
def checkEmail : Option String → Except String String
  | none => .error "\"email\" is required"
  | some s =>
    if s.data.isEmpty then .error "\"email\" is not allowed to be empty"
    else if !isEmailShaped s then .error "\"email\" must be a valid email"
    else .ok s

/-- `Joi.string().max(20).required()` on the `password` field. -/
def checkPassword : Option String → Except String String
  | none => .error "\"password\" is required"
  | some s =>
    if s.data.isEmpty then .error "\"password\" is not allowed to be empty"
    else if 20 < s.length then
      .error "\"password\" length must be less than or equal to 20 characters long"
    else .ok s

/-- Request body for `POST /signup`; a field is `none` when absent. -/
structure SignupBody where
  username : Option String
  email : Option String
  password : Option String
  deriving DecidableEq, Repr

/-- Request body for `POST /login`. -/
structure LoginBody where
  email : Option String
  password : Option String
  deriving DecidableEq, Repr

/-- Validated signup `value`. -/
structure SignupValue where
  username : String
  email : String
  password : String
  deriving DecidableEq, Repr

/-- Validated login `value`. -/
structure LoginValue where
  email : String
  password : String
  deriving DecidableEq, Repr

/-- `signupSchema.validate(req.body)`: fields in schema order, abort on the
first violation (Joi's default `abortEarly`). -/
def signupValidate (b : SignupBody) : Except String SignupValue := do
  let u ← checkUsername b.username
  let e ← checkEmail b.email
  let p ← checkPassword b.password
  return ⟨u, e, p⟩

/-- `loginSchema.validate(req.body)`. -/
def loginValidate (b : LoginBody) : Except String LoginValue := do
  let e ← checkEmail b.email
  let p ← checkPassword b.password
  return ⟨e, p⟩

/-! ## Password hasher

`bcrypt` is an external library; per the spec (§4.2): `hash(plaintext,
cost) -> hash` with fixed work factor 12, `verify(plaintext, hash) ->
bool`. -/

/-- Modelled from the spec: `bcrypt.hash` produces a tagged digest string
(bcrypt's `$2b$cost$...` format), never the plaintext itself. -/
def bcryptHash (plain : String) (cost : Nat) : String :=
  "$2b$" ++ toString cost ++ "$" ++ plain

/-- Modelled from the spec: `bcrypt.compare(plain, hash)` is true exactly
when `hash` was produced from `plain` at the fixed work factor. -/
def bcryptCompare (plain : String) (hash : String) : Bool :=
  hash == bcryptHash plain saltRounds

/-! ## Auth middleware (src/unnamed/part_000 lines 73-112) -/

/-- `isValidSession(req)`: true iff `req.session.authenticated`. -/
def isValidSession (sess : Session) : Bool := sess.authenticated

/-- `isAdmin(req)`: true iff `req.session.user_type == "admin"`. -/
def isAdmin (sess : Session) : Bool := sess.user_type == some "admin"

/-- The `adminAuthorization` 403 message (part_000 line 106). -/
def notAuthorizedMsg : String :=
  "Not Authorized - You must be an admin to access this page."

/-- `sessionValidation` middleware: continue to `next` when the session is
valid, else redirect to `/login`. -/
def sessionValidation (sess : Session) (db : List UserRec) (next : Result) :
    Result :=
  if isValidSession sess then next
  else ⟨.redirect "/login", sess, db, [], false⟩

/-- `adminAuthorization` middleware: when `!isAdmin(req)`, set status 403
and render the error message; else continue to `next`. -/
def adminAuthorization (sess : Session) (db : List UserRec) (next : Result) :
    Result :=
  if !isAdmin sess then ⟨.renderError 403 notAuthorizedMsg, sess, db, [], false⟩
  else next

/-- `userCollection.findOne(\x7b email \x7d)`: first document whose
`email` equals the key. -/
def findByEmail (db : List UserRec) (e : String) : Option UserRec :=
  db.find? (fun u => u.email == e)

/-- `userCollection.updateOne(\x7b _id \x7d, \x7b $set: \x7b user_type: t
\x7d \x7d)`: sets `user_type` on the first document whose id matches,
leaving everything else untouched. -/
def updateOne (db : List UserRec) (uid : String) (t : String) :
    List UserRec :=
  match db with
  | [] => []
  | u :: rest =>
    if u.uid = uid then { u with user_type := some t } :: rest
    else u :: updateOne rest uid t

/-- Whether an external database call threw (e.g. an invalid ObjectId
string or a connection failure); the handlers' `try/catch` branches on
this. -/
inductive DbOutcome where
  | ok
  | threw
  deriving DecidableEq, Repr

namespace App

/-! Route handlers of `src/unnamed/part_000` (the EJS/admin variant). -/

/-- `POST /signup` (part_000 lines 159-180): validate, hash, insert the
document with `user_type: "user"`, authenticate the session (username
only) and redirect to `/members`.  `newId` is the store-generated id of
the inserted document. -/
def signupHandler (newId : String) (b : SignupBody) (sess : Session)
    (db : List UserRec) : Result :=
  match signupValidate b with
  | .error msg => ⟨.renderSignup (some msg), sess, db, [], true⟩
  | .ok v =>
    let hashed := bcryptHash v.password saltRounds
    let r : UserRec := ⟨newId, v.username, v.email, hashed, some "user"⟩
    ⟨.redirect "/members",
     { sess with authenticated := true, username := some v.username },
     db ++ [r],
     [.hashCall v.password saltRounds, .insert r],
     true⟩

/-- `POST /login` (part_000 lines 190-217): validate, find by email; when
not found or the hash does not verify, render the generic message; else
authenticate the session, copying `username` and `user_type` from the
stored document, and redirect. -/
def loginHandler (b : LoginBody) (sess : Session) (db : List UserRec) :
    Result :=
  match loginValidate b with
  | .error msg => ⟨.renderLogin (some msg), sess, db, [], true⟩
  | .ok v =>
    match findByEmail db v.email with
    | none =>
      ⟨.renderLogin (some "Invalid email or password"), sess, db,
       [.findEmail v.email], true⟩
    | some found =>
      if !bcryptCompare v.password found.password then
        ⟨.renderLogin (some "Invalid email or password"), sess, db,
         [.findEmail v.email, .compareCall v.password found.password], true⟩
      else
        ⟨.redirect "/members",
         { sess with
             authenticated := true,
             username := some found.username,
             user_type := found.user_type },
         db,
         [.findEmail v.email, .compareCall v.password found.password], true⟩

/-- The protected body of `GET /admin` (part_000 lines 238-249): list all
users projected to username/user_type/id. -/
def adminHandler (sess : Session) (db : List UserRec) : Result :=
  ⟨.renderAdmin (db.map (fun u => ⟨u.username, u.user_type, u.uid⟩)),
   sess, db, [.findAll], true⟩

/-- `GET /admin` route: `sessionValidation`, `adminAuthorization`, then
the handler. -/
def adminRoute (sess : Session) (db : List UserRec) : Result :=
  sessionValidation sess db (adminAuthorization sess db (adminHandler sess db))

/-- The protected body of `GET /promote/:id` (part_000 lines 257-281):
`try` update `user_type` to `"admin"` and redirect to `/admin`; `catch`
renders a 500 error. -/
def promoteHandler (uid : String) (o : DbOutcome) (sess : Session)
    (db : List UserRec) : Result :=
  match o with
  | .ok =>
    ⟨.redirect "/admin", sess, updateOne db uid "admin",
     [.update uid "admin"], true⟩
  | .threw =>
    ⟨.renderError 500 "Failed to promote user. Please try again.",
     sess, db, [.update uid "admin"], true⟩

/-- `GET /promote/:id` route with its two middleware gates. -/
def promoteRoute (uid : String) (o : DbOutcome) (sess : Session)
    (db : List UserRec) : Result :=
  sessionValidation sess db
    (adminAuthorization sess db (promoteHandler uid o sess db))

/-- The protected body of `GET /demote/:id` (part_000 lines 288-312). -/
def demoteHandler (uid : String) (o : DbOutcome) (sess : Session)
    (db : List UserRec) : Result :=
  match o with
  | .ok =>
    ⟨.redirect "/admin", sess, updateOne db uid "user",
     [.update uid "user"], true⟩
  | .threw =>
    ⟨.renderError 500 "Failed to demote user. Please try again.",
     sess, db, [.update uid "user"], true⟩

/-- `GET /demote/:id` route with its two middleware gates. -/
def demoteRoute (uid : String) (o : DbOutcome) (sess : Session)
    (db : List UserRec) : Result :=
  sessionValidation sess db
    (adminAuthorization sess db (demoteHandler uid o sess db))

end App

namespace IndexJs

/-! Route handlers of `src/index.js` (the plain-HTML variant). -/

/-- `POST /signup` (index.js lines 108-128): same validation and hashing,
but the inserted document has only username/email/password - no
`user_type` field. -/
def signupHandler (newId : String) (b : SignupBody) (sess : Session)
    (db : List UserRec) : Result :=
  match signupValidate b with
  | .error msg =>
    ⟨.send ("<p style=\"color:red\">" ++ msg ++ "</p><a href=\"/signup\">Retry</a>"),
     sess, db, [], true⟩
  | .ok v =>
    let hashed := bcryptHash v.password saltRounds
    let r : UserRec := ⟨newId, v.username, v.email, hashed, none⟩
    ⟨.redirect "/members",
     { sess with authenticated := true, username := some v.username },
     db ++ [r],
     [.hashCall v.password saltRounds, .insert r],
     true⟩

end IndexJs

/-! ## NoSQL-injection demo endpoint (both variants, identical code) -/

/-- The value of `req.query.user` as the query-string parser delivers it:
absent, a string, or a non-string (e.g. the object produced by
`?user[$ne]=name`). -/
inductive QueryValue where
  | absent
  | str (s : String)
  | obj
  deriving DecidableEq, Repr

/-- JavaScript truthiness of `!username`: absent and the empty string are
falsy, objects are truthy. -/
def isFalsy : QueryValue → Bool
  | .absent => true
  | .str s => s.data.isEmpty
  | .obj => false

/-- `Joi.string().max(20).required().validate(username)`: `some s` when
`username` is a non-empty string of at most 20 characters (the validated
value), `none` when validation errors. -/
def joiValidateUser : QueryValue → Option String
  | .str s => if !s.data.isEmpty && s.length ≤ 20 then some s else none
  | _ => none

/-- Usage prompt sent when no user parameter is provided. -/
def noUserMsg : String :=
  "no user provided - try /nosql-injection?user=name or /nosql-injection?user[$ne]=name"

/-- Message sent when validation of the user parameter fails. -/
def attackMsg : String := "A NoSQL injection attack was detected!!"

/-- `GET /nosql-injection` (index.js lines 172-200, part_000 lines
115-143): falsy check, Joi validation, then - and only then - the
`find(\x7b username \x7d)` query. -/
def nosqlInjectionHandler (user : QueryValue) (_db : List UserRec) :
    Response × List Effect :=
  if isFalsy user then (.send noUserMsg, [])
  else
    match joiValidateUser user with
    | none => (.send attackMsg, [])
    | some s => (.send ("Hello " ++ s), [.findUsername s])

/-! ## Session expiry -/

/-- Modelled from the spec: the cookie is created with `maxAge =
expireTime` and the session store "expires it after the configured
duration"; the expiry check itself is express-session/connect-mongo
library behaviour, not code under src.  A request at `now` sees the
stored session while `now < created + expireTime` and an anonymous
session afterwards. -/
def sessionAtTime (created : Nat) (sess : Session) (now : Nat) : Session :=
  if now < created + expireTime then sess else anonymousSession

/-! ## Helper lemmas -/

/-- `updateOne` is the identity when no stored document has the target
id. -/
theorem updateOne_no_match (db : List UserRec) (uid t : String)
    (h : ∀ u ∈ db, u.uid ≠ uid) : updateOne db uid t = db := by
  induction db with
  | nil => rfl
  | cons u rest ih =>
    have hu : u.uid ≠ uid := h u (List.mem_cons_self u rest)
    simp only [updateOne, if_neg hu]
    rw [ih (fun v hv => h v (List.mem_cons_of_mem u hv))]

/-- No branch of the promote route ever writes to the session. -/
theorem promoteRoute_session (uid : String) (o : DbOutcome) (sess : Session)
    (db : List UserRec) : (App.promoteRoute uid o sess db).session = sess := by
  unfold App.promoteRoute sessionValidation adminAuthorization App.promoteHandler
  cases o <;> split <;> (try split) <;> rfl

/-- No branch of the demote route ever writes to the session. -/
theorem demoteRoute_session (uid : String) (o : DbOutcome) (sess : Session)
    (db : List UserRec) : (App.demoteRoute uid o sess db).session = sess := by
  unfold App.demoteRoute sessionValidation adminAuthorization App.demoteHandler
  cases o <;> split <;> (try split) <;> rfl

/-! ## Claims -/

/-- C1: for every login attempt with a well-formed email and password,
the no-such-user case and the wrong-password case produce the same
user-visible response (the generic invalid-credentials message), and in
both cases the session is unchanged and remains Anonymous. -/
theorem c1_login_indistinguishable (b : LoginBody) (v : LoginValue)
    (sess : Session) (db : List UserRec)
    (hval : loginValidate b = .ok v) (hanon : sess.authenticated = false) :
    (findByEmail db v.email = none →
      (App.loginHandler b sess db).response =
        .renderLogin (some "Invalid email or password") ∧
      (App.loginHandler b sess db).session = sess ∧
      (App.loginHandler b sess db).session.authenticated = false) ∧
    (∀ u, findByEmail db v.email = some u →
      bcryptCompare v.password u.password = false →
      (App.loginHandler b sess db).response =
        .renderLogin (some "Invalid email or password") ∧
      (App.loginHandler b sess db).session = sess ∧
      (App.loginHandler b sess db).session.authenticated = false) := by
  constructor
  · intro hnone
    refine ⟨?_, ?_, ?_⟩ <;>
      simp [App.loginHandler, hval, hnone, hanon]
  · intro u hsome hcmp
    refine ⟨?_, ?_, ?_⟩ <;>
      simp [App.loginHandler, hval, hsome, hcmp, hanon]

/-- Witness for C1: a concrete well-formed login attempt against an empty
store and against a store holding the email with a different password. -/
theorem c1_witness :
    (App.loginHandler ⟨some "a@x.com", some "pw"⟩ anonymousSession
        []).response = Response.renderLogin (some "Invalid email or password") ∧
    (App.loginHandler ⟨some "a@x.com", some "pw"⟩ anonymousSession
        [⟨"id1", "bob", "a@x.com", bcryptHash "other" saltRounds,
          some "user"⟩]).response =
      Response.renderLogin (some "Invalid email or password") :=
  ⟨((c1_login_indistinguishable ⟨some "a@x.com", some "pw"⟩ ⟨"a@x.com", "pw"⟩
      anonymousSession [] (by rfl) (by rfl)).1 (by rfl)).1,
   (((c1_login_indistinguishable ⟨some "a@x.com", some "pw"⟩ ⟨"a@x.com", "pw"⟩
      anonymousSession
      [⟨"id1", "bob", "a@x.com", bcryptHash "other" saltRounds, some "user"⟩]
      (by rfl) (by rfl)).2
      ⟨"id1", "bob", "a@x.com", bcryptHash "other" saltRounds, some "user"⟩
      (by rfl)) (by rfl)).1⟩

/-- C2: every request to /admin, /promote/:id or /demote/:id under an
authenticated non-admin session yields a 403 rendered error, with the
protected handler body never executed, no effects, and the store
unchanged. -/
theorem c2_admin_routes_403 (sess : Session) (db : List UserRec)
    (uid : String) (o : DbOutcome)
    (hauth : sess.authenticated = true)
    (hrole : sess.user_type ≠ some "admin") :
    App.adminRoute sess db =
      ⟨.renderError 403 notAuthorizedMsg, sess, db, [], false⟩ ∧
    App.promoteRoute uid o sess db =
      ⟨.renderError 403 notAuthorizedMsg, sess, db, [], false⟩ ∧
    App.demoteRoute uid o sess db =
      ⟨.renderError 403 notAuthorizedMsg, sess, db, [], false⟩ := by
  have hval : isValidSession sess = true := hauth
  have hadm : isAdmin sess = false := by
    simp only [isAdmin, beq_eq_false_iff_ne, ne_eq]
    exact hrole
  refine ⟨?_, ?_, ?_⟩ <;>
    simp [App.adminRoute, App.promoteRoute, App.demoteRoute,
      sessionValidation, adminAuthorization, hval, hadm]

/-- Witness for C2: a concrete authenticated ordinary-user session. -/
theorem c2_witness :
    App.adminRoute ⟨true, some "alice", some "user"⟩ [] =
      ⟨.renderError 403 notAuthorizedMsg, ⟨true, some "alice", some "user"⟩,
        [], [], false⟩ ∧
    App.promoteRoute "id9" .ok ⟨true, some "alice", some "user"⟩ [] =
      ⟨.renderError 403 notAuthorizedMsg, ⟨true, some "alice", some "user"⟩,
        [], [], false⟩ ∧
    App.demoteRoute "id9" .ok ⟨true, some "alice", some "user"⟩ [] =
      ⟨.renderError 403 notAuthorizedMsg, ⟨true, some "alice", some "user"⟩,
        [], [], false⟩ :=
  c2_admin_routes_403 ⟨true, some "alice", some "user"⟩ [] "id9" .ok
    (by rfl) (by decide)

/-- C3: every signup or login attempt that fails validation is answered
with the first violation message, and the handler performs no hash call
and no credential-store operation (empty effect list, store unchanged). -/
theorem c3_validation_first (sb : SignupBody) (lb : LoginBody)
    (m m' : String) (sess : Session) (db : List UserRec) (newId : String)
    (hs : signupValidate sb = .error m) (hl : loginValidate lb = .error m') :
    App.signupHandler newId sb sess db =
      ⟨.renderSignup (some m), sess, db, [], true⟩ ∧
    App.loginHandler lb sess db =
      ⟨.renderLogin (some m'), sess, db, [], true⟩ ∧
    IndexJs.signupHandler newId sb sess db =
      ⟨.send ("<p style=\"color:red\">" ++ m ++ "</p><a href=\"/signup\">Retry</a>"),
       sess, db, [], true⟩ := by
  unfold App.signupHandler App.loginHandler IndexJs.signupHandler
  rw [hs, hl]
  exact ⟨rfl, rfl, rfl⟩

/-- Witness for C3: a username with a space (alphanum violation) and a
malformed email. -/
theorem c3_witness :
    App.signupHandler "id0" ⟨some "al ice", some "a@x.com", some "pw"⟩
        anonymousSession [] =
      ⟨.renderSignup
        (some "\"username\" must only contain alpha-numeric characters"),
       anonymousSession, [], [], true⟩ ∧
    App.loginHandler ⟨some "notanemail", some "pw"⟩ anonymousSession [] =
      ⟨.renderLogin (some "\"email\" must be a valid email"),
       anonymousSession, [], [], true⟩ ∧
    IndexJs.signupHandler "id0" ⟨some "al ice", some "a@x.com", some "pw"⟩
        anonymousSession [] =
      ⟨.send ("<p style=\"color:red\">" ++
          "\"username\" must only contain alpha-numeric characters" ++
          "</p><a href=\"/signup\">Retry</a>"),
       anonymousSession, [], [], true⟩ :=
  c3_validation_first ⟨some "al ice", some "a@x.com", some "pw"⟩
    ⟨some "notanemail", some "pw"⟩
    "\"username\" must only contain alpha-numeric characters"
    "\"email\" must be a valid email" anonymousSession [] "id0"
    (by rfl) (by rfl)

/-- A concrete valid signup request body. -/
def c4Body : SignupBody := ⟨some "alice", some "a@x.com", some "pw12345"⟩

/-- Counterexample to C4 as stated: in the `src/index.js` variant a
successful signup inserts a document with no role field at all
(`user_type` is `none`, not `"user"`). -/
theorem c4_counterexample :
    (IndexJs.signupHandler "id0" c4Body anonymousSession []).response =
      Response.redirect "/members" ∧
    (IndexJs.signupHandler "id0" c4Body anonymousSession []).db.map
      UserRec.user_type = [none] ∧
    (IndexJs.signupHandler "id0" c4Body anonymousSession []).db.map
      UserRec.user_type ≠ [some "user"] := by
  refine ⟨rfl, rfl, ?_⟩
  decide

/-- C4 (amended): in the admin-enabled variant (src/unnamed/part_000)
every successful signup inserts the document with `user_type = "user"`;
the `src/index.js` variant inserts the same document without any role
field. -/
theorem c4_role_default (b : SignupBody) (v : SignupValue)
    (sess : Session) (db : List UserRec) (newId : String)
    (h : signupValidate b = .ok v) :
    (App.signupHandler newId b sess db).db =
      db ++ [⟨newId, v.username, v.email,
              bcryptHash v.password saltRounds, some "user"⟩] ∧
    (IndexJs.signupHandler newId b sess db).db =
      db ++ [⟨newId, v.username, v.email,
              bcryptHash v.password saltRounds, none⟩] := by
  unfold App.signupHandler IndexJs.signupHandler
  rw [h]
  exact ⟨rfl, rfl⟩

/-- Witness for C4 (amended): the concrete valid signup body. -/
theorem c4_witness :
    (App.signupHandler "id0" c4Body anonymousSession []).db =
      [⟨"id0", "alice", "a@x.com", bcryptHash "pw12345" saltRounds,
        some "user"⟩] ∧
    (IndexJs.signupHandler "id0" c4Body anonymousSession []).db =
      [⟨"id0", "alice", "a@x.com", bcryptHash "pw12345" saltRounds, none⟩] :=
  c4_role_default c4Body ⟨"alice", "a@x.com", "pw12345"⟩ anonymousSession []
    "id0" (by rfl)

/-- C5: the cookie maxAge constant is exactly 3600000 milliseconds, and a
session created at time T is treated as Anonymous at any time
T + 1 hour + ε for ε > 0. -/
theorem c5_session_expiry (T ε : Nat) (sess : Session) (hε : 0 < ε) :
    expireTime = 3600000 ∧
    sessionAtTime T sess (T + expireTime + ε) = anonymousSession ∧
    (sessionAtTime T sess (T + expireTime + ε)).authenticated = false := by
  have h : ¬ (T + expireTime + ε < T + expireTime) := by omega
  refine ⟨rfl, ?_, ?_⟩
  · unfold sessionAtTime
    rw [if_neg h]
  · unfold sessionAtTime
    rw [if_neg h]
    rfl

/-- Witness for C5: an authenticated admin session created at time 0,
accessed one millisecond past the hour. -/
theorem c5_witness :
    0 < 1 ∧
    (expireTime = 3600000 ∧
     sessionAtTime 0 ⟨true, some "alice", some "admin"⟩
       (0 + expireTime + 1) = anonymousSession ∧
     (sessionAtTime 0 ⟨true, some "alice", some "admin"⟩
       (0 + expireTime + 1)).authenticated = false) :=
  ⟨by decide, c5_session_expiry 0 1 ⟨true, some "alice", some "admin"⟩ (by decide)⟩

/-- C6: for an authenticated admin session, a throwing database update in
promote/demote is answered by a rendered 500 (the handler's catch branch,
so the process does not crash); every promote outcome is either the
success redirect or that rendered 500; and a promote on an id no stored
document has is a no-op success redirect. -/
theorem c6_role_update_failure (uid : String) (sess : Session)
    (db : List UserRec) (o : DbOutcome)
    (hauth : sess.authenticated = true)
    (hadm : sess.user_type = some "admin") :
    App.promoteRoute uid .threw sess db =
      ⟨.renderError 500 "Failed to promote user. Please try again.",
       sess, db, [.update uid "admin"], true⟩ ∧
    App.demoteRoute uid .threw sess db =
      ⟨.renderError 500 "Failed to demote user. Please try again.",
       sess, db, [.update uid "user"], true⟩ ∧
    ((App.promoteRoute uid o sess db).response = .redirect "/admin" ∨
     (App.promoteRoute uid o sess db).response =
       .renderError 500 "Failed to promote user. Please try again.") ∧
    ((∀ u ∈ db, u.uid ≠ uid) →
      App.promoteRoute uid .ok sess db =
        ⟨.redirect "/admin", sess, db, [.update uid "admin"], true⟩) := by
  have hval : isValidSession sess = true := hauth
  have hA : isAdmin sess = true := by
    simp [isAdmin, hadm]
  refine ⟨?_, ?_, ?_, ?_⟩
  · simp [App.promoteRoute, sessionValidation, adminAuthorization,
      App.promoteHandler, hval, hA]
  · simp [App.demoteRoute, sessionValidation, adminAuthorization,
      App.demoteHandler, hval, hA]
  · cases o
    · left
      simp [App.promoteRoute, sessionValidation, adminAuthorization,
        App.promoteHandler, hval, hA]
    · right
      simp [App.promoteRoute, sessionValidation, adminAuthorization,
        App.promoteHandler, hval, hA]
  · intro hno
    simp [App.promoteRoute, sessionValidation, adminAuthorization,
      App.promoteHandler, hval, hA, updateOne_no_match db uid "admin" hno]

/-- Witness for C6: a concrete admin session, an empty store and a
never-matching id. -/
theorem c6_witness :
    App.promoteRoute "nope" .threw ⟨true, some "root", some "admin"⟩ [] =
      ⟨.renderError 500 "Failed to promote user. Please try again.",
       ⟨true, some "root", some "admin"⟩, [], [.update "nope" "admin"],
       true⟩ ∧
    App.demoteRoute "nope" .threw ⟨true, some "root", some "admin"⟩ [] =
      ⟨.renderError 500 "Failed to demote user. Please try again.",
       ⟨true, some "root", some "admin"⟩, [], [.update "nope" "user"],
       true⟩ ∧
    ((App.promoteRoute "nope" .ok ⟨true, some "root", some "admin"⟩
        []).response = .redirect "/admin" ∨
     (App.promoteRoute "nope" .ok ⟨true, some "root", some "admin"⟩
        []).response =
       .renderError 500 "Failed to promote user. Please try again.") ∧
    ((∀ u ∈ ([] : List UserRec), u.uid ≠ "nope") →
      App.promoteRoute "nope" .ok ⟨true, some "root", some "admin"⟩ [] =
        ⟨.redirect "/admin", ⟨true, some "root", some "admin"⟩, [],
         [.update "nope" "admin"], true⟩) :=
  c6_role_update_failure "nope" ⟨true, some "root", some "admin"⟩ [] .ok
    (by rfl) (by rfl)

/-- The validated value produced by the injection-demo schema is exactly
the submitted string, which is then non-empty and at most 20 characters. -/
theorem joiValidateUser_some (user : QueryValue) (s : String)
    (h : joiValidateUser user = some s) :
    user = .str s ∧ s.data.isEmpty = false ∧ s.length ≤ 20 := by
  cases user with
  | absent => simp [joiValidateUser] at h
  | obj => simp [joiValidateUser] at h
  | str t =>
    simp only [joiValidateUser] at h
    split at h
    case isTrue hc =>
      obtain rfl : t = s := by
        simpa using h
      rw [Bool.and_eq_true] at hc
      refine ⟨rfl, ?_, ?_⟩
      · rw [Bool.not_eq_true'] at hc
        exact hc.1
      · exact of_decide_eq_true hc.2
    case isFalse hc =>
      exact absurd h (by simp)

/-- C7: the injection-demo endpoint answers an absent parameter with the
usage prompt, answers any truthy parameter failing the string-≤20 check
(including non-string operator objects) with the attack message - in both
cases with no store query - and queries the store only for a validated
string of at most 20 characters. -/
theorem c7_nosql_guard (user : QueryValue) (db : List UserRec) :
    nosqlInjectionHandler .absent db = (.send noUserMsg, []) ∧
    (isFalsy user = false → joiValidateUser user = none →
      nosqlInjectionHandler user db = (.send attackMsg, [])) ∧
    (∀ s, joiValidateUser user = some s →
      user = .str s ∧ s.length ≤ 20 ∧
      nosqlInjectionHandler user db =
        (.send ("Hello " ++ s), [.findUsername s])) ∧
    ((nosqlInjectionHandler user db).2 ≠ [] →
      ∃ s, user = .str s ∧ s.length ≤ 20 ∧
        (nosqlInjectionHandler user db).2 = [.findUsername s]) := by
  refine ⟨rfl, ?_, ?_, ?_⟩
  · intro hf hv
    simp [nosqlInjectionHandler, hf, hv]
  · intro s hs
    obtain ⟨rfl, hne, hlen⟩ := joiValidateUser_some user s hs
    refine ⟨rfl, hlen, ?_⟩
    simp [nosqlInjectionHandler, isFalsy, hne, hs]
  · intro hne
    by_cases hf : isFalsy user = true
    · simp [nosqlInjectionHandler, hf] at hne
    · rw [Bool.not_eq_true] at hf
      cases hj : joiValidateUser user with
      | none => simp [nosqlInjectionHandler, hf, hj] at hne
      | some s =>
        obtain ⟨rfl, hne2, hlen⟩ := joiValidateUser_some user s hj
        exact ⟨s, rfl, hlen, by simp [nosqlInjectionHandler, isFalsy, hne2, hj]⟩

/-- Witness for C7: the absent parameter, an operator object, an oversized
string, and a valid lookup key. -/
theorem c7_witness :
    nosqlInjectionHandler .absent [] = (.send noUserMsg, []) ∧
    nosqlInjectionHandler .obj [] = (.send attackMsg, []) ∧
    nosqlInjectionHandler (.str "aaaaaaaaaaaaaaaaaaaaaaaaa") [] =
      (.send attackMsg, []) ∧
    nosqlInjectionHandler (.str "alice") [] =
      (.send ("Hello " ++ "alice"), [.findUsername "alice"]) :=
  ⟨(c7_nosql_guard .absent []).1,
   (c7_nosql_guard .obj []).2.1 (by rfl) (by rfl),
   (c7_nosql_guard (.str "aaaaaaaaaaaaaaaaaaaaaaaaa") []).2.1 (by rfl) (by rfl),
   ((c7_nosql_guard (.str "alice") []).2.2.1 "alice" (by rfl)).2.2⟩

/-- C8: the work factor is 12; a valid signup hashes the submitted
password at that cost and stores the resulting digest, which differs from
the plaintext and verifies against it. -/
theorem c8_password_hashing (b : SignupBody) (v : SignupValue)
    (sess : Session) (db : List UserRec) (newId : String)
    (h : signupValidate b = .ok v) :
    saltRounds = 12 ∧
    (App.signupHandler newId b sess db).effects =
      [.hashCall v.password saltRounds,
       .insert ⟨newId, v.username, v.email,
                bcryptHash v.password saltRounds, some "user"⟩] ∧
    bcryptHash v.password saltRounds ≠ v.password ∧
    bcryptCompare v.password (bcryptHash v.password saltRounds) = true := by
  refine ⟨rfl, ?_, ?_, ?_⟩
  · simp [App.signupHandler, h]
  · intro he
    have hl := congrArg String.length he
    rw [show bcryptHash v.password saltRounds = "$2b$12$" ++ v.password
      from rfl] at hl
    rw [String.length_append] at hl
    have h7 : ("$2b$12$" : String).length = 7 := rfl
    omega
  · simp [bcryptCompare]

/-- Witness for C8: the concrete valid signup body. -/
theorem c8_witness :
    saltRounds = 12 ∧
    (App.signupHandler "id0" ⟨some "alice", some "a@x.com", some "pw12345"⟩
        anonymousSession []).effects =
      [.hashCall "pw12345" saltRounds,
       .insert ⟨"id0", "alice", "a@x.com", bcryptHash "pw12345" saltRounds,
                some "user"⟩] ∧
    bcryptHash "pw12345" saltRounds ≠ "pw12345" ∧
    bcryptCompare "pw12345" (bcryptHash "pw12345" saltRounds) = true :=
  c8_password_hashing ⟨some "alice", some "a@x.com", some "pw12345"⟩
    ⟨"alice", "a@x.com", "pw12345"⟩ anonymousSession [] "id0" (by rfl)

/-- C9: the admin check reads only the session's role copy; signup
authenticates a session without writing that copy, so a fresh session
established by signup is denied the admin area with a 403 whatever the
credential store says, and promote/demote never write to the session. -/
theorem c9_session_role_copy (b : SignupBody) (v : SignupValue)
    (sess : Session) (db db2 : List UserRec) (newId uid : String)
    (o : DbOutcome) (h : signupValidate b = .ok v) :
    (App.signupHandler newId b sess db).session.user_type =
      sess.user_type ∧
    (sess.user_type = none →
      isAdmin (App.signupHandler newId b sess db).session = false ∧
      App.adminRoute (App.signupHandler newId b sess db).session db2 =
        ⟨.renderError 403 notAuthorizedMsg,
         (App.signupHandler newId b sess db).session, db2, [], false⟩) ∧
    (App.promoteRoute uid o sess db2).session = sess ∧
    (App.demoteRoute uid o sess db2).session = sess := by
  have hsess : (App.signupHandler newId b sess db).session =
      { sess with authenticated := true, username := some v.username } := by
    simp [App.signupHandler, h]
  refine ⟨?_, ?_, promoteRoute_session uid o sess db2,
    demoteRoute_session uid o sess db2⟩
  · rw [hsess]
  · intro hnone
    have hA : isAdmin (App.signupHandler newId b sess db).session = false := by
      rw [hsess]
      simp [isAdmin, hnone]
    have hv : isValidSession (App.signupHandler newId b sess db).session
        = true := by
      rw [hsess]
      rfl
    refine ⟨hA, ?_⟩
    simp [App.adminRoute, sessionValidation, adminAuthorization, hv, hA]

/-- Witness for C9: a fresh anonymous session signs up while the store
already holds an admin record for that very user. -/
theorem c9_witness :
    (App.signupHandler "id0" ⟨some "alice", some "a@x.com", some "pw12345"⟩
        anonymousSession []).session.user_type = anonymousSession.user_type ∧
    (anonymousSession.user_type = none →
      isAdmin (App.signupHandler "id0"
        ⟨some "alice", some "a@x.com", some "pw12345"⟩ anonymousSession
        []).session = false ∧
      App.adminRoute (App.signupHandler "id0"
          ⟨some "alice", some "a@x.com", some "pw12345"⟩ anonymousSession
          []).session
        [⟨"id0", "alice", "a@x.com", bcryptHash "pw12345" saltRounds,
          some "admin"⟩] =
        ⟨.renderError 403 notAuthorizedMsg,
         (App.signupHandler "id0"
           ⟨some "alice", some "a@x.com", some "pw12345"⟩ anonymousSession
           []).session,
         [⟨"id0", "alice", "a@x.com", bcryptHash "pw12345" saltRounds,
           some "admin"⟩], [], false⟩) ∧
    (App.promoteRoute "id0" .ok anonymousSession
      [⟨"id0", "alice", "a@x.com", bcryptHash "pw12345" saltRounds,
        some "admin"⟩]).session = anonymousSession ∧
    (App.demoteRoute "id0" .ok anonymousSession
      [⟨"id0", "alice", "a@x.com", bcryptHash "pw12345" saltRounds,
        some "admin"⟩]).session = anonymousSession :=
  c9_session_role_copy ⟨some "alice", some "a@x.com", some "pw12345"⟩
    ⟨"alice", "a@x.com", "pw12345"⟩ anonymousSession []
    [⟨"id0", "alice", "a@x.com", bcryptHash "pw12345" saltRounds,
      some "admin"⟩] "id0" "id0" .ok (by rfl)

/-- C10: a successful promote (demote) by an admin session updates the
store with `updateOne`; `updateOne` preserves id, username, email and
password of every document, leaves every document whose id differs from
the target unchanged, only ever changes a document by setting its
`user_type` to the new role, and - when ids are unique - sets exactly the
targeted document's `user_type`. -/
theorem c10_update_frame (db : List UserRec) (uid : String) (sess : Session)
    (hauth : sess.authenticated = true)
    (hadm : sess.user_type = some "admin") :
    (App.promoteRoute uid .ok sess db).db = updateOne db uid "admin" ∧
    (App.demoteRoute uid .ok sess db).db = updateOne db uid "user" ∧
    (∀ t : String, List.Forall₂ (fun u u' =>
        u'.uid = u.uid ∧ u'.username = u.username ∧ u'.email = u.email ∧
        u'.password = u.password ∧ (u.uid ≠ uid → u' = u) ∧
        (u' ≠ u → u.uid = uid ∧ u'.user_type = some t))
      db (updateOne db uid t)) ∧
    (∀ t : String, ∀ u ∈ db, u.uid = uid →
      db.Pairwise (fun a b => a.uid ≠ b.uid) →
      { u with user_type := some t } ∈ updateOne db uid t) := by
  have hval : isValidSession sess = true := hauth
  have hA : isAdmin sess = true := by
    simp [isAdmin, hadm]
  refine ⟨?_, ?_, ?_, ?_⟩
  · simp [App.promoteRoute, sessionValidation, adminAuthorization,
      App.promoteHandler, hval, hA]
  · simp [App.demoteRoute, sessionValidation, adminAuthorization,
      App.demoteHandler, hval, hA]
  · intro t
    induction db with
    | nil => exact List.Forall₂.nil
    | cons u rest ih =>
      by_cases hc : u.uid = uid
      · simp only [updateOne, if_pos hc]
        refine List.Forall₂.cons ⟨rfl, rfl, rfl, rfl, ?_, ?_⟩ ?_
        · intro hne
          exact absurd hc hne
        · intro _
          exact ⟨hc, rfl⟩
        · rw [List.forall₂_same]
          intro x _
          exact ⟨rfl, rfl, rfl, rfl, fun _ => rfl, fun hne => absurd rfl hne⟩
      · simp only [updateOne, if_neg hc]
        exact List.Forall₂.cons
          ⟨rfl, rfl, rfl, rfl, fun _ => rfl, fun hne => absurd rfl hne⟩ ih
  · intro t
    induction db with
    | nil =>
      intro u hu
      cases hu
    | cons w rest ih =>
      intro u hu huid hpair
      rcases List.mem_cons.mp hu with rfl | hmem
      · simp only [updateOne, if_pos huid]
        exact List.mem_cons_self _ _
      · by_cases hc : w.uid = uid
        · exfalso
          have hne := (List.pairwise_cons.mp hpair).1 u hmem
          exact hne (by rw [huid, hc])
        · simp only [updateOne, if_neg hc]
          exact List.mem_cons_of_mem w
            (ih u hmem huid (List.pairwise_cons.mp hpair).2)

/-- Witness for C10: a two-document store with distinct ids, promoting the
first. -/
theorem c10_witness :
    (App.promoteRoute "a" .ok ⟨true, some "root", some "admin"⟩
      [⟨"a", "u1", "e1", "p1", some "user"⟩,
       ⟨"b", "u2", "e2", "p2", some "user"⟩]).db =
      updateOne [⟨"a", "u1", "e1", "p1", some "user"⟩,
                 ⟨"b", "u2", "e2", "p2", some "user"⟩] "a" "admin" ∧
    (App.demoteRoute "a" .ok ⟨true, some "root", some "admin"⟩
      [⟨"a", "u1", "e1", "p1", some "user"⟩,
       ⟨"b", "u2", "e2", "p2", some "user"⟩]).db =
      updateOne [⟨"a", "u1", "e1", "p1", some "user"⟩,
                 ⟨"b", "u2", "e2", "p2", some "user"⟩] "a" "user" ∧
    { (⟨"a", "u1", "e1", "p1", some "user"⟩ : UserRec) with
        user_type := some "admin" } ∈
      updateOne [⟨"a", "u1", "e1", "p1", some "user"⟩,
                 ⟨"b", "u2", "e2", "p2", some "user"⟩] "a" "admin" :=
  ⟨(c10_update_frame
      [⟨"a", "u1", "e1", "p1", some "user"⟩,
       ⟨"b", "u2", "e2", "p2", some "user"⟩] "a"
      ⟨true, some "root", some "admin"⟩ (by rfl) (by rfl)).1,
   (c10_update_frame
      [⟨"a", "u1", "e1", "p1", some "user"⟩,
       ⟨"b", "u2", "e2", "p2", some "user"⟩] "a"
      ⟨true, some "root", some "admin"⟩ (by rfl) (by rfl)).2.1,
   (c10_update_frame
      [⟨"a", "u1", "e1", "p1", some "user"⟩,
       ⟨"b", "u2", "e2", "p2", some "user"⟩] "a"
      ⟨true, some "root", some "admin"⟩ (by rfl) (by rfl)).2.2.2 "admin"
     ⟨"a", "u1", "e1", "p1", some "user"⟩ (by decide) (by rfl) (by decide)⟩

end Demo
